import Mathlib

/-
Shallow embedding of the Cloudflare Worker in src/index.js: an HTTP gateway
exposing canvas CRUD endpoints over a key-value store.

Modelling conventions:
- JSON values are the inductive `Json`; `JSON.stringify` followed by a later
  `get(key, "json")` parse is modelled as the identity on `Json`, except that
  an `undefined` field value is dropped by `stringify` (we model a possibly
  undefined field as `Option Json` and omit the field when it is `none`).
- The KV store is an association list from key strings to stored `Json`.
- `crypto.randomUUID()` and `new Date().toISOString()` are nondeterministic;
  they are passed in as explicit `newId` / `now` parameters.
- A handler that can throw (property access on `null`, `request.json()` on a
  malformed body) returns `Except String _`; the request body is carried as
  `Option Json`, `none` meaning the body is not valid JSON so that
  `request.json()` throws.
- JavaScript truthiness is `Json.truthy`; `a?.b` and `a || b` are `optChain`
  and `jsOr` below.
-/

namespace CfKv

inductive Json where
  | null : Json
  | bool (b : Bool) : Json
  | num (n : Int) : Json
  | str (s : String) : Json
  | arr (elems : List Json) : Json
  | obj (fields : List (String × Json)) : Json
deriving Repr

mutual

def Json.decEq : (a b : Json) → Decidable (a = b)
  | .null, .null => isTrue rfl
  | .null, .bool _ => isFalse nofun
  | .null, .num _ => isFalse nofun
  | .null, .str _ => isFalse nofun
  | .null, .arr _ => isFalse nofun
  | .null, .obj _ => isFalse nofun
  | .bool _, .null => isFalse nofun
  | .bool a, .bool b =>
    if h : a = b then isTrue (h ▸ rfl) else isFalse (fun hh => h (Json.bool.inj hh))
  | .bool _, .num _ => isFalse nofun
  | .bool _, .str _ => isFalse nofun
  | .bool _, .arr _ => isFalse nofun
  | .bool _, .obj _ => isFalse nofun
  | .num _, .null => isFalse nofun
  | .num _, .bool _ => isFalse nofun
  | .num a, .num b =>
    if h : a = b then isTrue (h ▸ rfl) else isFalse (fun hh => h (Json.num.inj hh))
  | .num _, .str _ => isFalse nofun
  | .num _, .arr _ => isFalse nofun
  | .num _, .obj _ => isFalse nofun
  | .str _, .null => isFalse nofun
  | .str _, .bool _ => isFalse nofun
  | .str _, .num _ => isFalse nofun
  | .str a, .str b =>
    if h : a = b then isTrue (h ▸ rfl) else isFalse (fun hh => h (Json.str.inj hh))
  | .str _, .arr _ => isFalse nofun
  | .str _, .obj _ => isFalse nofun
  | .arr _, .null => isFalse nofun
  | .arr _, .bool _ => isFalse nofun
  | .arr _, .num _ => isFalse nofun
  | .arr _, .str _ => isFalse nofun
  | .arr xs, .arr ys =>
    match Json.decEqList xs ys with
    | isTrue h => isTrue (h ▸ rfl)
    | isFalse h => isFalse (fun hh => h (Json.arr.inj hh))
  | .arr _, .obj _ => isFalse nofun
  | .obj _, .null => isFalse nofun
  | .obj _, .bool _ => isFalse nofun
  | .obj _, .num _ => isFalse nofun
  | .obj _, .str _ => isFalse nofun
  | .obj _, .arr _ => isFalse nofun
  | .obj xs, .obj ys =>
    match Json.decEqFields xs ys with
    | isTrue h => isTrue (h ▸ rfl)
    | isFalse h => isFalse (fun hh => h (Json.obj.inj hh))

def Json.decEqList : (xs ys : List Json) → Decidable (xs = ys)
  | [], [] => isTrue rfl
  | [], _ :: _ => isFalse nofun
  | _ :: _, [] => isFalse nofun
  | x :: xs, y :: ys =>
    match Json.decEq x y with
    | isFalse h => isFalse (fun hh => h (List.cons.inj hh).1)
    | isTrue h1 =>
      match Json.decEqList xs ys with
      | isTrue h2 => isTrue (by rw [h1, h2])
      | isFalse h2 => isFalse (fun hh => h2 (List.cons.inj hh).2)

def Json.decEqFields : (xs ys : List (String × Json)) → Decidable (xs = ys)
  | [], [] => isTrue rfl
  | [], _ :: _ => isFalse nofun
  | _ :: _, [] => isFalse nofun
  | (k, v) :: xs, (k', v') :: ys =>
    if hk : k = k' then
      match Json.decEq v v' with
      | isFalse h1 => isFalse (fun hh => h1 (congrArg Prod.snd (List.cons.inj hh).1))
      | isTrue h1 =>
        match Json.decEqFields xs ys with
        | isTrue h2 => isTrue (by rw [hk, h1, h2])
        | isFalse h2 => isFalse (fun hh => h2 (List.cons.inj hh).2)
    else isFalse (fun hh => hk (congrArg Prod.fst (List.cons.inj hh).1))

end

instance : DecidableEq Json := Json.decEq

instance {e a : Type} [DecidableEq e] [DecidableEq a] : DecidableEq (Except e a) :=
  fun x y =>
    match x, y with
    | .ok u, .ok v =>
      if h : u = v then isTrue (h ▸ rfl) else isFalse (fun hh => h (Except.ok.inj hh))
    | .ok _, .error _ => isFalse nofun
    | .error _, .ok _ => isFalse nofun
    | .error u, .error v =>
      if h : u = v then isTrue (h ▸ rfl) else isFalse (fun hh => h (Except.error.inj hh))

/-- JavaScript truthiness of a JSON value: `null`, `false`, `0` and `""` are
falsy; arrays and objects are always truthy. -/
def Json.truthy : Json → Bool
  | .null => false
  | .bool b => b
  | .num n => n != 0
  | .str s => s != ""
  | .arr _ => true
  | .obj _ => true

/-- Lookup of a field in an association list of object fields. -/
def fieldsGet : List (String × Json) → String → Option Json
  | [], _ => none
  | (k, v) :: rest, key => if k = key then some v else fieldsGet rest key

/-- Field lookup on a JSON value: only objects have fields. -/
def Json.getField : Json → String → Option Json
  | .obj fs, key => fieldsGet fs key
  | _, _ => none

/-- JavaScript property access `v.key`: throws a TypeError when `v` is `null`,
yields `undefined` (`none`) on other non-objects and on a missing field. -/
def getProp : Json → String → Except String (Option Json)
  | .null, key => .error ("Cannot read properties of null (reading '" ++ key ++ "')")
  | .obj fs, key => .ok (fieldsGet fs key)
  | _, _ => .ok none

/-- JavaScript optional chaining `v?.key` where `v` may be `undefined`
(`none`): short-circuits to `undefined` when the base is `undefined` or
`null`, otherwise accesses the property. -/
def optChain : Option Json → String → Option Json
  | none, _ => none
  | some .null, _ => none
  | some (.obj fs), key => fieldsGet fs key
  | some _, _ => none

/-- JavaScript `a || b` where `a` may be `undefined`: yields `a` when truthy,
otherwise `b`. -/
def jsOr : Option Json → Json → Json
  | some v, d => if v.truthy then v else d
  | none, d => d

/-- JavaScript `a || b` where both sides may be `undefined`. -/
def jsOrOpt : Option Json → Option Json → Option Json
  | some v, d => if v.truthy then some v else d
  | none, d => d

/-- The fields of a JSON value under object spread `{...v}`: non-objects
spread to nothing. -/
def Json.spreadFields : Json → List (String × Json)
  | .obj fs => fs
  | _ => []

/-- Setting a field as object-literal spread-override does: if the key is
present its first occurrence is overridden in place, otherwise the field is
appended at the end. -/
def setField : List (String × Json) → String → Json → List (String × Json)
  | [], key, v => [(key, v)]
  | (k, w) :: rest, key, v =>
    if k = key then (key, v) :: rest else (k, w) :: setField rest key v

/-- Removing a field (for a field whose value is `undefined`, which
`JSON.stringify` drops). -/
def dropField : List (String × Json) → String → List (String × Json)
  | [], _ => []
  | (k, w) :: rest, key =>
    if k = key then dropField rest key else (k, w) :: dropField rest key

/-- Setting a field to a possibly-undefined value: `undefined` ends up dropped
by `JSON.stringify`, so the key disappears. -/
def setFieldOpt (fs : List (String × Json)) (key : String) : Option Json → List (String × Json)
  | some v => setField fs key v
  | none => dropField fs key

/-- JS `s.startsWith(pre)`, on the character lists (kernel-reducible, unlike
`String.startsWith`). -/
def jsStartsWith (s pre : String) : Bool :=
  pre.data.isPrefixOf s.data

/-- The key-value store: an association list from keys to the (parsed) JSON
values stored under them. -/
abbrev KV := List (String × Json)

def kvGet : KV → String → Option Json
  | [], _ => none
  | (k, v) :: rest, key => if k = key then some v else kvGet rest key

def kvPut : KV → String → Json → KV
  | [], key, v => [(key, v)]
  | (k, w) :: rest, key, v =>
    if k = key then (key, v) :: rest else (k, w) :: kvPut rest key v

def kvDelete : KV → String → KV
  | [], _ => []
  | (k, w) :: rest, key =>
    if k = key then kvDelete rest key else (k, w) :: kvDelete rest key

/-- Names of the stored keys that start with the given prefix, in store
order (models `list({prefix})`). -/
def kvListKeys (kv : KV) (pre : String) : List String :=
  (kv.map Prod.fst).filter (fun k => jsStartsWith k pre)

/-- Body of an HTTP response: empty, plain text, or serialized JSON. -/
inductive Body where
  | empty : Body
  | text (s : String) : Body
  | json (j : Json) : Body
deriving Repr, DecidableEq

structure Response where
  status : Nat
  body : Body
  headers : List (String × String)
deriving Repr, DecidableEq

def headersGet : List (String × String) → String → Option String
  | [], _ => none
  | (k, v) :: rest, key => if k = key then some v else headersGet rest key

def headersSet : List (String × String) → String → String → List (String × String)
  | [], key, v => [(key, v)]
  | (k, w) :: rest, key, v =>
    if k = key then (key, v) :: rest else (k, w) :: headersSet rest key v

structure Request where
  method : String
  path : String
  headers : List (String × String)
  body : Option Json

structure Env where
  API_TOKEN : String

def KEY_PREFIX_METADATA : String := "excalidraw-canvas-meta:"
def KEY_PREFIX_DATA : String := "excalidraw-canvas-data:"

def isAuthorized (req : Request) (env : Env) : Bool :=
  match headersGet req.headers "Authorization" with
  | none => false
  | some authHeader =>
    if ¬ jsStartsWith authHeader "Bearer " then false
    else authHeader.drop 7 == env.API_TOKEN

def setCorsHeaders (r : Response) : Response :=
  Response.mk r.status r.body
    (headersSet
      (headersSet
        (headersSet r.headers "Access-Control-Allow-Origin" "*")
        "Access-Control-Allow-Methods" "GET, POST, PUT, DELETE, PATCH, OPTIONS")
      "Access-Control-Allow-Headers" "Content-Type, Authorization")

def handleOptions (req : Request) : Response :=
  if headersGet req.headers "Origin" != none &&
     headersGet req.headers "Access-Control-Request-Method" != none &&
     headersGet req.headers "Access-Control-Request-Headers" != none then
    Response.mk 200 Body.empty
      [("Access-Control-Allow-Origin", "*"),
       ("Access-Control-Allow-Methods", "GET, POST, PUT, DELETE, PATCH, OPTIONS"),
       ("Access-Control-Allow-Headers", "Content-Type, Authorization")]
  else
    Response.mk 200 Body.empty [("Allow", "GET, POST, PUT, DELETE, PATCH, OPTIONS")]

def handleListCanvases (kv : KV) : Response :=
  let keys := kvListKeys kv KEY_PREFIX_METADATA
  if keys.isEmpty then
    setCorsHeaders (Response.mk 200 (Body.json (Json.arr []))
      [("Content-Type", "application/json")])
  else
    let metadata := keys.filterMap (kvGet kv)
    setCorsHeaders (Response.mk 200 (Body.json (Json.arr metadata))
      [("Content-Type", "application/json")])

/-- Models `request.json()`: throws when the body is not valid JSON. -/
def requestJson : Option Json → Except String Json
  | none => .error "Unexpected end of JSON input"
  | some j => .ok j

def handleCreateCanvas (newId now : String) (body : Option Json) (kv : KV) :
    Except String (Response × KV) := do
  let data ← requestJson body
  let appState ← getProp data "appState"
  let name := jsOr (optChain appState "name") (Json.str "Untitled Canvas")
  let newMetadata : Json := Json.obj
    [("id", Json.str newId), ("name", name), ("createdAt", Json.str now),
     ("updatedAt", Json.str now), ("userId", Json.num 0)]
  let metadataKey := KEY_PREFIX_METADATA ++ newId
  let dataKey := KEY_PREFIX_DATA ++ newId
  let kv1 := kvPut kv metadataKey newMetadata
  let kv2 := kvPut kv1 dataKey data
  return (setCorsHeaders (Response.mk 201 (Body.json newMetadata)
    [("Content-Type", "application/json")]), kv2)

def handleLoadCanvas (id : String) (kv : KV) : Response :=
  let key := KEY_PREFIX_DATA ++ id
  match kvGet kv key with
  | some data =>
    if data.truthy then
      setCorsHeaders (Response.mk 200 (Body.json data)
        [("Content-Type", "application/json")])
    else
      setCorsHeaders (Response.mk 404 (Body.text "Canvas not found") [])
  | none => setCorsHeaders (Response.mk 404 (Body.text "Canvas not found") [])

def handleSaveCanvas (now : String) (body : Option Json) (id : String) (kv : KV) :
    Except String (Response × KV) := do
  let data ← requestJson body
  let metadataKey := KEY_PREFIX_METADATA ++ id
  match kvGet kv metadataKey with
  | none =>
    return (setCorsHeaders (Response.mk 404
      (Body.text "Canvas metadata not found. Cannot save.") []), kv)
  | some existingMetadata =>
    if ¬ existingMetadata.truthy then
      return (setCorsHeaders (Response.mk 404
        (Body.text "Canvas metadata not found. Cannot save.") []), kv)
    else do
      let appState ← getProp data "appState"
      let nameVal := jsOrOpt (optChain appState "name")
        (existingMetadata.getField "name")
      let updatedMetadata : Json := Json.obj
        (setField (setFieldOpt existingMetadata.spreadFields "name" nameVal)
          "updatedAt" (Json.str now))
      let dataKey := KEY_PREFIX_DATA ++ id
      let kv1 := kvPut kv metadataKey updatedMetadata
      let kv2 := kvPut kv1 dataKey data
      return (setCorsHeaders (Response.mk 204 Body.empty []), kv2)

def handleDeleteCanvas (id : String) (kv : KV) : Response × KV :=
  let metadataKey := KEY_PREFIX_METADATA ++ id
  let dataKey := KEY_PREFIX_DATA ++ id
  let kv1 := kvDelete kv metadataKey
  let kv2 := kvDelete kv1 dataKey
  (setCorsHeaders (Response.mk 204 Body.empty []), kv2)

/-- JavaScript truthiness of a get result that may be `null` for an absent
key. -/
def truthyOpt : Option Json → Bool
  | none => false
  | some v => v.truthy

/-- The fields a possibly-undefined value spreads to: `{...undefined}` is
`\x7b\x7d`. -/
def spreadOpt : Option Json → List (String × Json)
  | none => []
  | some v => v.spreadFields

def handleRenameCanvas (now : String) (body : Option Json) (id : String) (kv : KV) :
    Except String (Response × KV) := do
  let parsed ← requestJson body
  let newNameOpt ← getProp parsed "name"
  if ¬ truthyOpt newNameOpt then
    return (setCorsHeaders (Response.mk 400 (Body.text "New name not provided") []), kv)
  else
    let newName := newNameOpt.getD Json.null
    let metadataKey := KEY_PREFIX_METADATA ++ id
    let dataKey := KEY_PREFIX_DATA ++ id
    let metadataOpt := kvGet kv metadataKey
    let dataOpt := kvGet kv dataKey
    if ¬ truthyOpt metadataOpt then
      return (setCorsHeaders (Response.mk 404
        (Body.text "Canvas metadata not found. Cannot rename.") []), kv)
    else if ¬ truthyOpt dataOpt then
      return (setCorsHeaders (Response.mk 404
        (Body.text "Canvas data not found. Cannot rename.") []), kv)
    else
      let metadata := metadataOpt.getD Json.null
      let data := dataOpt.getD Json.null
      let updatedMetadata : Json := Json.obj
        (setField (setField metadata.spreadFields "name" newName)
          "updatedAt" (Json.str now))
      let updatedData : Json := Json.obj
        (setField data.spreadFields "appState"
          (Json.obj (setField (spreadOpt (data.getField "appState")) "name" newName)))
      let kv1 := kvPut kv metadataKey updatedMetadata
      let kv2 := kvPut kv1 dataKey updatedData
      return (setCorsHeaders (Response.mk 204 Body.empty []), kv2)

/-- Splitting a character list on every slash, keeping empty segments:
the accumulator holds the current segment reversed. Models JS
`String.prototype.split("/")`. -/
def splitSegsAux : List Char → List Char → List String
  | [], acc => [String.mk acc.reverse]
  | c :: rest, acc =>
    if c = '/' then String.mk acc.reverse :: splitSegsAux rest []
    else splitSegsAux rest (c :: acc)

/-- JS `path.split("/")`. -/
def jsSplitSlash (path : String) : List String :=
  splitSegsAux path.data []

/-- The third slash-separated segment of a path, as
`url.pathname.split("/")[3]` yields it (the empty string also stands for the
out-of-range `undefined`, which is equally falsy). -/
def pathSegment3 (path : String) : String :=
  (jsSplitSlash path).getD 3 ""

/-- The body of the `try` block of `fetch`: the route dispatch. `none` means
no route matched and control falls through to the final 404. The inner 404
for an empty id segment is returned without CORS headers, exactly as in the
source. -/
def routeCanvases (newId now : String) (req : Request) (kv : KV) :
    Option (Except String (Response × KV)) :=
  if req.path = "/api/canvases" then
    if req.method = "GET" then some (.ok (handleListCanvases kv, kv))
    else if req.method = "POST" then some (handleCreateCanvas newId now req.body kv)
    else none
  else if jsStartsWith req.path "/api/canvases/" then
    let id := pathSegment3 req.path
    if id = "" then some (.ok (Response.mk 404 (Body.text "Not Found") [], kv))
    else if req.method = "GET" then some (.ok (handleLoadCanvas id kv, kv))
    else if req.method = "PUT" then some (handleSaveCanvas now req.body id kv)
    else if req.method = "DELETE" then some (.ok (handleDeleteCanvas id kv))
    else if req.method = "PATCH" then some (handleRenameCanvas now req.body id kv)
    else none
  else none

/-- Everything `fetch` does after the preflight and authorization checks:
run the router inside the failure boundary, fall through to a CORS 404.
A thrown error surfaces as a plain 500 carrying the error message and no
CORS headers, as in the source; no handler writes to the store before it can
throw, so the store is unchanged in that case. -/
def fetchRouter (newId now : String) (req : Request) (kv : KV) : Response × KV :=
  match routeCanvases newId now req kv with
  | some (.ok rkv) => rkv
  | some (.error msg) => (Response.mk 500 (Body.text msg) [], kv)
  | none => (setCorsHeaders (Response.mk 404 (Body.text "Not Found") []), kv)

/-- The worker entry point. The 401 response is returned without CORS
headers, exactly as in the source. -/
def fetch (newId now : String) (req : Request) (env : Env) (kv : KV) : Response × KV :=
  if req.method = "OPTIONS" then (handleOptions req, kv)
  else if ¬ isAuthorized req env then
    (Response.mk 401 (Body.text "Unauthorized") [], kv)
  else fetchRouter newId now req kv

/-! Helper lemmas about the store and header maps. -/

theorem kvGet_kvPut_self (kv : KV) (k : String) (v : Json) :
    kvGet (kvPut kv k v) k = some v := by
  induction kv with
  | nil => simp [kvPut, kvGet]
  | cons hd tl ih =>
    by_cases h : hd.1 = k
    · simp [kvPut, kvGet, h]
    · simp [kvPut, kvGet, h, ih]

theorem kvGet_kvPut_ne (kv : KV) (k k' : String) (v : Json) (h : k' ≠ k) :
    kvGet (kvPut kv k v) k' = kvGet kv k' := by
  induction kv with
  | nil => simp [kvPut, kvGet, h, Ne.symm h]
  | cons hd tl ih =>
    by_cases hh : hd.1 = k
    · simp [kvPut, kvGet, hh, Ne.symm h, h]
    · by_cases hh' : hd.1 = k'
      · simp [kvPut, kvGet, hh, hh', h, Ne.symm h]
      · simp [kvPut, kvGet, hh, hh', ih]

theorem kvGet_kvDelete_self (kv : KV) (k : String) :
    kvGet (kvDelete kv k) k = none := by
  induction kv with
  | nil => simp [kvDelete, kvGet]
  | cons hd tl ih =>
    by_cases h : hd.1 = k
    · simp [kvDelete, kvGet, h, ih]
    · simp [kvDelete, kvGet, h, ih]

theorem kvGet_kvDelete_ne (kv : KV) (k k' : String) (h : k' ≠ k) :
    kvGet (kvDelete kv k) k' = kvGet kv k' := by
  induction kv with
  | nil => simp [kvDelete, kvGet]
  | cons hd tl ih =>
    by_cases hh : hd.1 = k
    · simp [kvDelete, kvGet, hh, Ne.symm h, ih]
    · by_cases hh' : hd.1 = k'
      · simp [kvDelete, kvGet, hh, hh', h, Ne.symm h]
      · simp [kvDelete, kvGet, hh, hh', ih]

theorem kvDelete_eq_filter (kv : KV) (k : String) :
    kvDelete kv k = kv.filter (fun p => p.1 != k) := by
  induction kv with
  | nil => simp [kvDelete]
  | cons hd tl ih =>
    by_cases h : hd.1 = k <;> simp [kvDelete, h, ih]

theorem kvDelete_kvDelete_self (kv : KV) (k : String) :
    kvDelete (kvDelete kv k) k = kvDelete kv k := by
  simp only [kvDelete_eq_filter, List.filter_filter]
  exact List.filter_congr (fun x _ => by cases h : (x.1 != k) <;> simp [h])

theorem kvDelete_comm (kv : KV) (a b : String) :
    kvDelete (kvDelete kv a) b = kvDelete (kvDelete kv b) a := by
  simp only [kvDelete_eq_filter, List.filter_filter]
  exact List.filter_congr (fun x _ => Bool.and_comm _ _)

theorem fieldsGet_setField_self (fs : List (String × Json)) (k : String) (v : Json) :
    fieldsGet (setField fs k v) k = some v := by
  induction fs with
  | nil => simp [setField, fieldsGet]
  | cons hd tl ih =>
    by_cases h : hd.1 = k
    · simp [setField, fieldsGet, h]
    · simp [setField, fieldsGet, h, ih]

theorem fieldsGet_setField_ne (fs : List (String × Json)) (k k' : String) (v : Json)
    (h : k' ≠ k) : fieldsGet (setField fs k v) k' = fieldsGet fs k' := by
  induction fs with
  | nil => simp [setField, fieldsGet, h, Ne.symm h]
  | cons hd tl ih =>
    by_cases hh : hd.1 = k
    · simp [setField, fieldsGet, hh, Ne.symm h, h]
    · by_cases hh' : hd.1 = k'
      · simp [setField, fieldsGet, hh, hh', h, Ne.symm h]
      · simp [setField, fieldsGet, hh, hh', ih]

theorem fieldsGet_dropField_ne (fs : List (String × Json)) (k k' : String)
    (h : k' ≠ k) : fieldsGet (dropField fs k) k' = fieldsGet fs k' := by
  induction fs with
  | nil => simp [dropField, fieldsGet]
  | cons hd tl ih =>
    by_cases hh : hd.1 = k
    · simp [dropField, fieldsGet, hh, Ne.symm h, ih]
    · by_cases hh' : hd.1 = k'
      · simp [dropField, fieldsGet, hh, hh', h, Ne.symm h]
      · simp [dropField, fieldsGet, hh, hh', ih]

theorem fieldsGet_spreadFields (v : Json) (k : String) :
    fieldsGet v.spreadFields k = v.getField k := by
  cases v <;> simp [Json.spreadFields, Json.getField, fieldsGet]

theorem headersGet_headersSet_self (hs : List (String × String)) (k v : String) :
    headersGet (headersSet hs k v) k = some v := by
  induction hs with
  | nil => simp [headersSet, headersGet]
  | cons hd tl ih =>
    by_cases h : hd.1 = k
    · simp [headersSet, headersGet, h]
    · simp [headersSet, headersGet, h, ih]

theorem headersGet_headersSet_ne (hs : List (String × String)) (k k' v : String)
    (h : k' ≠ k) : headersGet (headersSet hs k v) k' = headersGet hs k' := by
  induction hs with
  | nil => simp [headersSet, headersGet, h, Ne.symm h]
  | cons hd tl ih =>
    by_cases hh : hd.1 = k
    · simp [headersSet, headersGet, hh, Ne.symm h, h]
    · by_cases hh' : hd.1 = k'
      · simp [headersSet, headersGet, hh, hh', h, Ne.symm h]
      · simp [headersSet, headersGet, hh, hh', ih]

theorem metaKey_ne_dataKey (id : String) :
    KEY_PREFIX_METADATA ++ id ≠ KEY_PREFIX_DATA ++ id := by
  intro h
  have h2 : (KEY_PREFIX_METADATA ++ id).data = (KEY_PREFIX_DATA ++ id).data :=
    congrArg String.data h
  simp only [String.data_append] at h2
  have h3 : KEY_PREFIX_METADATA.data = KEY_PREFIX_DATA.data :=
    List.append_cancel_right h2
  exact absurd h3 (by decide)

/-- Whether a response carries the three CORS headers with their exact
values. -/
def hasCorsHeaders (r : Response) : Bool :=
  headersGet r.headers "Access-Control-Allow-Origin" == some "*" &&
  headersGet r.headers "Access-Control-Allow-Methods" ==
    some "GET, POST, PUT, DELETE, PATCH, OPTIONS" &&
  headersGet r.headers "Access-Control-Allow-Headers" ==
    some "Content-Type, Authorization"

theorem hasCorsHeaders_setCorsHeaders (r : Response) :
    hasCorsHeaders (setCorsHeaders r) = true := by
  simp [hasCorsHeaders, setCorsHeaders, headersGet_headersSet_self,
    headersGet_headersSet_ne]

/-! Claim theorems. -/

/-- C4: an authorized PUT /api/canvases/<id> request whose id has no stored
metadata record gets a 404 response, and the store is returned completely
unchanged — no put is issued to either key. -/
theorem C4_save_nonexistent_404_no_writes (now id : String) (d : Json) (kv : KV)
    (h : kvGet kv (KEY_PREFIX_METADATA ++ id) = none) :
    handleSaveCanvas now (some d) id kv =
      .ok (setCorsHeaders
        (Response.mk 404 (Body.text "Canvas metadata not found. Cannot save.") []), kv) := by
  simp [handleSaveCanvas, requestJson, h]

/-- Witness for C4 at a concrete input: empty store, id "abc". -/
theorem C4_save_nonexistent_404_no_writes_witness :
    handleSaveCanvas "t0" (some (Json.obj [])) "abc" [] =
      .ok (setCorsHeaders
        (Response.mk 404 (Body.text "Canvas metadata not found. Cannot save.") []), []) :=
  C4_save_nonexistent_404_no_writes "t0" "abc" (Json.obj []) [] rfl

/-- C6: DELETE /api/canvases/<id> deletes both the metadata and the data key
whether or not they exist, responds 204, and is idempotent: a second
identical delete returns the same 204 response and leaves the store in the
same state. -/
theorem C6_delete_idempotent (id : String) (kv : KV) :
    handleDeleteCanvas id kv =
      (setCorsHeaders (Response.mk 204 Body.empty []),
        kvDelete (kvDelete kv (KEY_PREFIX_METADATA ++ id)) (KEY_PREFIX_DATA ++ id)) ∧
    (handleDeleteCanvas id kv).1.status = 204 ∧
    kvGet (handleDeleteCanvas id kv).2 (KEY_PREFIX_METADATA ++ id) = none ∧
    kvGet (handleDeleteCanvas id kv).2 (KEY_PREFIX_DATA ++ id) = none ∧
    handleDeleteCanvas id (handleDeleteCanvas id kv).2 = handleDeleteCanvas id kv := by
  refine ⟨rfl, rfl, ?_, ?_, ?_⟩
  · rw [show (handleDeleteCanvas id kv).2 =
      kvDelete (kvDelete kv (KEY_PREFIX_METADATA ++ id)) (KEY_PREFIX_DATA ++ id) from rfl]
    rw [kvGet_kvDelete_ne _ _ _ (metaKey_ne_dataKey id)]
    exact kvGet_kvDelete_self _ _
  · exact kvGet_kvDelete_self _ _
  · show (setCorsHeaders (Response.mk 204 Body.empty []),
      kvDelete (kvDelete (kvDelete (kvDelete kv (KEY_PREFIX_METADATA ++ id))
        (KEY_PREFIX_DATA ++ id)) (KEY_PREFIX_METADATA ++ id)) (KEY_PREFIX_DATA ++ id)) = _
    rw [kvDelete_comm _ (KEY_PREFIX_DATA ++ id) (KEY_PREFIX_METADATA ++ id),
      kvDelete_kvDelete_self, kvDelete_kvDelete_self]
    rfl

/-- C9 counterexample: with the store holding keys foo1, foo2, bar1 and a
correctly authorized GET /keys request, the worker returns the CORS 404
fall-through response — not the `\x7bresult, success, result_info\x7d`
envelope the claim describes. There is no generic KV gateway route in this
source. -/
theorem C9_counterexample :
    fetch "id0" "t0"
        (Request.mk "GET" "/keys" [("Authorization", "Bearer s")] none)
        (Env.mk "s")
        [("foo1", Json.str "a"), ("foo2", Json.str "b"), ("bar1", Json.str "c")] =
      (setCorsHeaders (Response.mk 404 (Body.text "Not Found") []),
        [("foo1", Json.str "a"), ("foo2", Json.str "b"), ("bar1", Json.str "c")]) ∧
    (setCorsHeaders (Response.mk 404 (Body.text "Not Found") [])).status = 404 ∧
    (setCorsHeaders (Response.mk 404 (Body.text "Not Found") [])).body ≠
      Body.json (Json.obj
        [("result", Json.arr [Json.obj [("name", Json.str "foo1")],
                              Json.obj [("name", Json.str "foo2")]]),
         ("success", Json.bool true),
         ("result_info", Json.obj [("count", Json.num 2)])]) := by
  refine ⟨by decide, rfl, by decide⟩

/-- C9 amended: an authorized GET /keys request matches no route of this
worker and falls through to the CORS 404 response, leaving the store
untouched. -/
theorem C9_keys_falls_through_404 (newId now : String) (hdrs : List (String × String))
    (body : Option Json) (env : Env) (kv : KV)
    (ha : isAuthorized (Request.mk "GET" "/keys" hdrs body) env = true) :
    fetch newId now (Request.mk "GET" "/keys" hdrs body) env kv =
      (setCorsHeaders (Response.mk 404 (Body.text "Not Found") []), kv) := by
  have h1 : ("/keys" : String) ≠ "/api/canvases" := by decide
  have h2 : jsStartsWith "/keys" "/api/canvases/" = false := by decide
  simp [fetch, ha, fetchRouter, routeCanvases, h1, h2]

/-- Witness for C9 amended at a concrete authorized request. -/
theorem C9_keys_falls_through_404_witness :
    fetch "id0" "t0" (Request.mk "GET" "/keys" [("Authorization", "Bearer s")] none)
        (Env.mk "s") [] =
      (setCorsHeaders (Response.mk 404 (Body.text "Not Found") []), []) :=
  C9_keys_falls_through_404 "id0" "t0" [("Authorization", "Bearer s")] none
    (Env.mk "s") [] (by decide)

/-- C3: for a non-OPTIONS request, when the Authorization header is missing,
does not start with the literal prefix "Bearer ", or carries a token (the
text after the 7-character prefix) different from the configured secret, the
response is 401 and the store is untouched — no handler and no store
operation runs. When the token equals the secret, the request reaches the
router (`fetchRouter`, the try-block around the route dispatch). -/
theorem C3_auth_gate (newId now : String) (req : Request) (env : Env) (kv : KV)
    (hm : req.method ≠ "OPTIONS") :
    ((∀ a, headersGet req.headers "Authorization" = some a →
        jsStartsWith a "Bearer " = false ∨ a.drop 7 ≠ env.API_TOKEN) →
      fetch newId now req env kv = (Response.mk 401 (Body.text "Unauthorized") [], kv)) ∧
    (∀ a, headersGet req.headers "Authorization" = some a →
      jsStartsWith a "Bearer " = true → a.drop 7 = env.API_TOKEN →
      fetch newId now req env kv = fetchRouter newId now req kv) := by
  constructor
  · intro h
    have hauth : isAuthorized req env = false := by
      unfold isAuthorized
      cases hh : headersGet req.headers "Authorization" with
      | none => rfl
      | some a =>
        rcases h a hh with h1 | h1
        · simp [h1]
        · by_cases hp : jsStartsWith a "Bearer "
          · simp [hp, beq_false_of_ne h1]
          · simp [hp]
    simp [fetch, hm, hauth]
  · intro a ha hpre htok
    have hauth : isAuthorized req env = true := by
      unfold isAuthorized
      simp [ha, hpre, htok]
    simp [fetch, hm, hauth]

/-- Witness for C3 at concrete inputs: a request with no Authorization header
gets 401 with the store untouched, and a request whose bearer token matches
the secret is dispatched to the router. -/
theorem C3_auth_gate_witness :
    fetch "i" "t" (Request.mk "GET" "/x" [] none) (Env.mk "secret") [] =
      (Response.mk 401 (Body.text "Unauthorized") [], []) ∧
    fetch "i" "t" (Request.mk "GET" "/x" [("Authorization", "Bearer secret")] none)
        (Env.mk "secret") [] =
      fetchRouter "i" "t"
        (Request.mk "GET" "/x" [("Authorization", "Bearer secret")] none) [] :=
  ⟨(C3_auth_gate "i" "t" (Request.mk "GET" "/x" [] none) (Env.mk "secret") []
      (by decide)).1 (fun a ha => by simp [headersGet] at ha),
   (C3_auth_gate "i" "t" (Request.mk "GET" "/x" [("Authorization", "Bearer secret")] none)
      (Env.mk "secret") [] (by decide)).2 "Bearer secret" (by decide) (by decide) (by decide)⟩

/-- C2 counterexample: the JSON body `0` round-trips into the store, but the
load handler treats the parsed falsy value `0` as missing (`if (!data)`) and
returns 404 rather than the stored body. -/
theorem C2_counterexample :
    handleCreateCanvas "id0" "t0" (some (Json.num 0)) [] =
      .ok (setCorsHeaders (Response.mk 201
          (Body.json (Json.obj
            [("id", Json.str "id0"), ("name", Json.str "Untitled Canvas"),
             ("createdAt", Json.str "t0"), ("updatedAt", Json.str "t0"),
             ("userId", Json.num 0)]))
          [("Content-Type", "application/json")]),
        [(KEY_PREFIX_METADATA ++ "id0", Json.obj
            [("id", Json.str "id0"), ("name", Json.str "Untitled Canvas"),
             ("createdAt", Json.str "t0"), ("updatedAt", Json.str "t0"),
             ("userId", Json.num 0)]),
         (KEY_PREFIX_DATA ++ "id0", Json.num 0)]) ∧
    handleLoadCanvas "id0"
        [(KEY_PREFIX_METADATA ++ "id0", Json.obj
            [("id", Json.str "id0"), ("name", Json.str "Untitled Canvas"),
             ("createdAt", Json.str "t0"), ("updatedAt", Json.str "t0"),
             ("userId", Json.num 0)]),
         (KEY_PREFIX_DATA ++ "id0", Json.num 0)] =
      setCorsHeaders (Response.mk 404 (Body.text "Canvas not found") []) ∧
    Body.text "Canvas not found" ≠ Body.json (Json.num 0) := by
  refine ⟨by decide, by decide, by decide⟩

/-- C2 amended: for every truthy JSON body (in particular every object),
creating a canvas and then loading it by the id returned by the create gives
back exactly the submitted body as JSON. Falsy JSON bodies (`null`, `false`,
`0`, `""`) are the exception the counterexample exhibits. -/
theorem C2_roundtrip (newId now : String) (d : Json) (kv : KV)
    (ht : d.truthy = true) :
    ∀ r kv', handleCreateCanvas newId now (some d) kv = .ok (r, kv') →
      handleLoadCanvas newId kv' =
        setCorsHeaders (Response.mk 200 (Body.json d)
          [("Content-Type", "application/json")]) := by
  intro r kv' hc
  have hnn : d ≠ Json.null := by
    intro h
    rw [h] at ht
    exact Bool.noConfusion ht
  obtain ⟨o, ho⟩ : ∃ o, getProp d "appState" = .ok o := by
    cases d with
    | null => exact absurd rfl hnn
    | bool b => exact ⟨none, rfl⟩
    | num n => exact ⟨none, rfl⟩
    | str s => exact ⟨none, rfl⟩
    | arr xs => exact ⟨none, rfl⟩
    | obj fs => exact ⟨fieldsGet fs "appState", rfl⟩
  have hval : handleCreateCanvas newId now (some d) kv =
      .ok (setCorsHeaders (Response.mk 201 (Body.json (Json.obj
          [("id", Json.str newId),
           ("name", jsOr (optChain o "name") (Json.str "Untitled Canvas")),
           ("createdAt", Json.str now), ("updatedAt", Json.str now),
           ("userId", Json.num 0)]))
          [("Content-Type", "application/json")]),
        kvPut (kvPut kv (KEY_PREFIX_METADATA ++ newId) (Json.obj
          [("id", Json.str newId),
           ("name", jsOr (optChain o "name") (Json.str "Untitled Canvas")),
           ("createdAt", Json.str now), ("updatedAt", Json.str now),
           ("userId", Json.num 0)])) (KEY_PREFIX_DATA ++ newId) d) := by
    simp [handleCreateCanvas, requestJson, ho, Bind.bind, Except.bind,
      Pure.pure, Except.pure]
  rw [hval] at hc
  obtain ⟨-, hkv⟩ := Prod.mk.inj (Except.ok.inj hc)
  subst hkv
  simp [handleLoadCanvas, kvGet_kvPut_self, ht]

/-- Witness for C2 amended: creating with the (truthy) body `\x7b\x7d` and
loading again yields the body back with status 200. -/
theorem C2_roundtrip_witness :
    handleLoadCanvas "id0"
        [(KEY_PREFIX_METADATA ++ "id0", Json.obj
            [("id", Json.str "id0"), ("name", Json.str "Untitled Canvas"),
             ("createdAt", Json.str "t0"), ("updatedAt", Json.str "t0"),
             ("userId", Json.num 0)]),
         (KEY_PREFIX_DATA ++ "id0", Json.obj [])] =
      setCorsHeaders (Response.mk 200 (Body.json (Json.obj []))
        [("Content-Type", "application/json")]) :=
  C2_roundtrip "id0" "t0" (Json.obj []) [] (by decide)
    (Response.mk 201 (Body.json (Json.obj
        [("id", Json.str "id0"), ("name", Json.str "Untitled Canvas"),
         ("createdAt", Json.str "t0"), ("updatedAt", Json.str "t0"),
         ("userId", Json.num 0)]))
      [("Content-Type", "application/json"),
       ("Access-Control-Allow-Origin", "*"),
       ("Access-Control-Allow-Methods", "GET, POST, PUT, DELETE, PATCH, OPTIONS"),
       ("Access-Control-Allow-Headers", "Content-Type, Authorization")])
    [(KEY_PREFIX_METADATA ++ "id0", Json.obj
        [("id", Json.str "id0"), ("name", Json.str "Untitled Canvas"),
         ("createdAt", Json.str "t0"), ("updatedAt", Json.str "t0"),
         ("userId", Json.num 0)]),
     (KEY_PREFIX_DATA ++ "id0", Json.obj [])]
    (by decide)

/-- C1 counterexample: with body `\x7b"appState":\x7b"name":""\x7d\x7d` the
body's `appState.name` is present (the empty string), yet the metadata
written and returned carries the name "Untitled Canvas", because JS `||`
treats the empty string as falsy. -/
theorem C1_counterexample :
    handleCreateCanvas "id0" "t0"
        (some (Json.obj [("appState", Json.obj [("name", Json.str "")])])) [] =
      .ok (setCorsHeaders (Response.mk 201
          (Body.json (Json.obj
            [("id", Json.str "id0"), ("name", Json.str "Untitled Canvas"),
             ("createdAt", Json.str "t0"), ("updatedAt", Json.str "t0"),
             ("userId", Json.num 0)]))
          [("Content-Type", "application/json")]),
        [(KEY_PREFIX_METADATA ++ "id0", Json.obj
            [("id", Json.str "id0"), ("name", Json.str "Untitled Canvas"),
             ("createdAt", Json.str "t0"), ("updatedAt", Json.str "t0"),
             ("userId", Json.num 0)]),
         (KEY_PREFIX_DATA ++ "id0",
          Json.obj [("appState", Json.obj [("name", Json.str "")])])]) ∧
    optChain ((getProp (Json.obj [("appState", Json.obj [("name", Json.str "")])])
        "appState").toOption.getD none) "name" = some (Json.str "") ∧
    Json.str "Untitled Canvas" ≠ Json.str "" := by
  refine ⟨by decide, by decide, by decide⟩

/-- C1 amended: for every JSON body on which the property access
`data.appState` does not throw (every body except `null`), the create
handler writes the new metadata under the metadata key and the submitted
body under the data key, and responds 201 with a metadata object whose id is
the fresh id, whose createdAt and updatedAt both equal the single timestamp,
and whose name is the body's `appState.name` when that is present and truthy
— with the default "Untitled Canvas" when it is absent or falsy (e.g. the
empty string). -/
theorem C1_create (newId now : String) (d : Json) (o : Option Json) (kv : KV)
    (ho : getProp d "appState" = .ok o) :
    ∃ meta : List (String × Json),
      handleCreateCanvas newId now (some d) kv =
        .ok (setCorsHeaders (Response.mk 201 (Body.json (Json.obj meta))
            [("Content-Type", "application/json")]),
          kvPut (kvPut kv (KEY_PREFIX_METADATA ++ newId) (Json.obj meta))
            (KEY_PREFIX_DATA ++ newId) d) ∧
      fieldsGet meta "id" = some (Json.str newId) ∧
      fieldsGet meta "createdAt" = some (Json.str now) ∧
      fieldsGet meta "updatedAt" = some (Json.str now) ∧
      (∀ nv, optChain o "name" = some nv → nv.truthy = true →
        fieldsGet meta "name" = some nv) ∧
      (truthyOpt (optChain o "name") = false →
        fieldsGet meta "name" = some (Json.str "Untitled Canvas")) := by
  refine ⟨[("id", Json.str newId),
    ("name", jsOr (optChain o "name") (Json.str "Untitled Canvas")),
    ("createdAt", Json.str now), ("updatedAt", Json.str now),
    ("userId", Json.num 0)], ?_, ?_, ?_, ?_, ?_, ?_⟩
  · simp [handleCreateCanvas, requestJson, ho, Bind.bind, Except.bind,
      Pure.pure, Except.pure]
  · simp [fieldsGet]
  · simp [fieldsGet]
  · simp [fieldsGet]
  · intro nv h1 h2
    simp [fieldsGet, h1, jsOr, h2]
  · intro hfalse
    cases hno : optChain o "name" with
    | none => simp [fieldsGet, hno, jsOr]
    | some v =>
      rw [hno] at hfalse
      simp only [truthyOpt] at hfalse
      simp [fieldsGet, hno, jsOr, hfalse]

/-- Witness for C1 amended at body `\x7b"appState":\x7b"name":"Foo"\x7d\x7d`. -/
theorem C1_create_witness :
    ∃ meta : List (String × Json),
      handleCreateCanvas "id0" "t0"
          (some (Json.obj [("appState", Json.obj [("name", Json.str "Foo")])])) [] =
        .ok (setCorsHeaders (Response.mk 201 (Body.json (Json.obj meta))
            [("Content-Type", "application/json")]),
          kvPut (kvPut [] (KEY_PREFIX_METADATA ++ "id0") (Json.obj meta))
            (KEY_PREFIX_DATA ++ "id0")
            (Json.obj [("appState", Json.obj [("name", Json.str "Foo")])])) ∧
      fieldsGet meta "id" = some (Json.str "id0") ∧
      fieldsGet meta "createdAt" = some (Json.str "t0") ∧
      fieldsGet meta "updatedAt" = some (Json.str "t0") ∧
      (∀ nv, optChain (some (Json.obj [("name", Json.str "Foo")])) "name" = some nv →
        nv.truthy = true → fieldsGet meta "name" = some nv) ∧
      (truthyOpt (optChain (some (Json.obj [("name", Json.str "Foo")])) "name") = false →
        fieldsGet meta "name" = some (Json.str "Untitled Canvas")) :=
  C1_create "id0" "t0" (Json.obj [("appState", Json.obj [("name", Json.str "Foo")])])
    (some (Json.obj [("name", Json.str "Foo")])) [] (by decide)

/-- C10: the router takes the canvas id to be exactly the third
slash-separated segment of the path: two requests that differ only in their
path, both strictly under /api/canvases/ with the same nonempty third
segment, are handled identically (extra trailing segments are ignored); and
any request whose path starts with /api/canvases/ but whose third segment is
empty receives a 404. -/
theorem C10_third_segment (newId now : String) (req : Request) (p2 : String)
    (env : Env) (kv : KV)
    (h1 : req.path ≠ "/api/canvases") (h2 : p2 ≠ "/api/canvases")
    (hs1 : jsStartsWith req.path "/api/canvases/" = true)
    (hs2 : jsStartsWith p2 "/api/canvases/" = true)
    (heq : pathSegment3 p2 = pathSegment3 req.path)
    (hne : pathSegment3 req.path ≠ "") :
    fetch newId now req env kv =
      fetch newId now (Request.mk req.method p2 req.headers req.body) env kv ∧
    (∀ q : Request, q.method ≠ "OPTIONS" → isAuthorized q env = true →
      jsStartsWith q.path "/api/canvases/" = true → pathSegment3 q.path = "" →
      fetch newId now q env kv = (Response.mk 404 (Body.text "Not Found") [], kv)) := by
  constructor
  · obtain ⟨m, p, hs, b⟩ := req
    simp only at h1 hs1 heq hne
    by_cases hopt : m = "OPTIONS"
    · simp [fetch, hopt, handleOptions]
    · have hauth : isAuthorized (Request.mk m p hs b) env =
          isAuthorized (Request.mk m p2 hs b) env := by
        simp [isAuthorized]
      by_cases ha : isAuthorized (Request.mk m p hs b) env
      · simp [fetch, hopt, ha, ← hauth, fetchRouter, routeCanvases, h1, h2,
          hs1, hs2, heq, hne]
      · simp [fetch, hopt, ha, ← hauth]
  · intro q hqm hqa hqs hq3
    have hqp : q.path ≠ "/api/canvases" := by
      intro hh
      rw [hh] at hqs
      exact absurd hqs (by decide)
    simp [fetch, hqm, hqa, fetchRouter, routeCanvases, hqp, hqs, hq3]

/-- Witness for C10: /api/canvases/abc/def is handled exactly like
/api/canvases/abc, and /api/canvases/ gets a 404. -/
theorem C10_third_segment_witness :
    fetch "i" "t" (Request.mk "GET" "/api/canvases/abc/def"
        [("Authorization", "Bearer s")] none) (Env.mk "s") [] =
      fetch "i" "t" (Request.mk "GET" "/api/canvases/abc"
        [("Authorization", "Bearer s")] none) (Env.mk "s") [] ∧
    (∀ q : Request, q.method ≠ "OPTIONS" → isAuthorized q (Env.mk "s") = true →
      jsStartsWith q.path "/api/canvases/" = true → pathSegment3 q.path = "" →
      fetch "i" "t" q (Env.mk "s") [] =
        (Response.mk 404 (Body.text "Not Found") [], [])) :=
  C10_third_segment "i" "t"
    (Request.mk "GET" "/api/canvases/abc/def" [("Authorization", "Bearer s")] none)
    "/api/canvases/abc" (Env.mk "s") [] (by decide) (by decide) (by decide)
    (by decide) (by decide) (by decide)

theorem hasCors_handleListCanvases (kv : KV) :
    hasCorsHeaders (handleListCanvases kv) = true := by
  unfold handleListCanvases
  by_cases h : (kvListKeys kv KEY_PREFIX_METADATA).isEmpty <;>
    simp [h, hasCorsHeaders_setCorsHeaders]

theorem hasCors_handleCreateCanvas (newId now : String) (body : Option Json)
    (kv : KV) (r : Response) (kv' : KV)
    (h : handleCreateCanvas newId now body kv = .ok (r, kv')) :
    hasCorsHeaders r = true := by
  cases body with
  | none => exact absurd h (by simp [handleCreateCanvas, requestJson,
      Bind.bind, Except.bind])
  | some d =>
    cases d with
    | null => exact absurd h (by simp [handleCreateCanvas, requestJson, getProp,
        Bind.bind, Except.bind])
    | bool b =>
      rw [← (Prod.mk.inj (Except.ok.inj h)).1]
      exact hasCorsHeaders_setCorsHeaders _
    | num n =>
      rw [← (Prod.mk.inj (Except.ok.inj h)).1]
      exact hasCorsHeaders_setCorsHeaders _
    | str s =>
      rw [← (Prod.mk.inj (Except.ok.inj h)).1]
      exact hasCorsHeaders_setCorsHeaders _
    | arr xs =>
      rw [← (Prod.mk.inj (Except.ok.inj h)).1]
      exact hasCorsHeaders_setCorsHeaders _
    | obj fs =>
      rw [← (Prod.mk.inj (Except.ok.inj h)).1]
      exact hasCorsHeaders_setCorsHeaders _

theorem hasCors_handleLoadCanvas (id : String) (kv : KV) :
    hasCorsHeaders (handleLoadCanvas id kv) = true := by
  unfold handleLoadCanvas
  cases h : kvGet kv (KEY_PREFIX_DATA ++ id) with
  | none => simp [h, hasCorsHeaders_setCorsHeaders]
  | some d =>
    by_cases ht : d.truthy <;> simp [h, ht, hasCorsHeaders_setCorsHeaders]

theorem hasCors_handleSaveCanvas (now : String) (body : Option Json) (id : String)
    (kv : KV) (r : Response) (kv' : KV)
    (h : handleSaveCanvas now body id kv = .ok (r, kv')) :
    hasCorsHeaders r = true := by
  cases body with
  | none => exact absurd h (by simp [handleSaveCanvas, requestJson,
      Bind.bind, Except.bind])
  | some d =>
    rw [show handleSaveCanvas now (some d) id kv =
        (match kvGet kv (KEY_PREFIX_METADATA ++ id) with
         | none => Except.ok (setCorsHeaders (Response.mk 404
             (Body.text "Canvas metadata not found. Cannot save.") []), kv)
         | some existingMetadata =>
           if ¬ existingMetadata.truthy then
             Except.ok (setCorsHeaders (Response.mk 404
               (Body.text "Canvas metadata not found. Cannot save.") []), kv)
           else
             Except.bind (getProp d "appState") (fun appState =>
               Except.ok (setCorsHeaders (Response.mk 204 Body.empty []),
                 kvPut (kvPut kv (KEY_PREFIX_METADATA ++ id) (Json.obj
                   (setField (setFieldOpt existingMetadata.spreadFields "name"
                     (jsOrOpt (optChain appState "name")
                       (existingMetadata.getField "name")))
                     "updatedAt" (Json.str now))))
                   (KEY_PREFIX_DATA ++ id) d))) from rfl] at h
    cases hm : kvGet kv (KEY_PREFIX_METADATA ++ id) with
    | none =>
      rw [hm] at h
      rw [← (Prod.mk.inj (Except.ok.inj h)).1]
      exact hasCorsHeaders_setCorsHeaders _
    | some m =>
      rw [hm] at h
      by_cases htm : m.truthy
      · simp only [htm, not_true, if_false] at h
        cases hap : getProp d "appState" with
        | error e => rw [hap] at h; exact absurd h (by simp [Except.bind])
        | ok o =>
          rw [hap] at h
          simp only [Except.bind] at h
          rw [← (Prod.mk.inj (Except.ok.inj h)).1]
          exact hasCorsHeaders_setCorsHeaders _
      · simp only [htm, not_false_iff, if_true] at h
        rw [← (Prod.mk.inj (Except.ok.inj h)).1]
        exact hasCorsHeaders_setCorsHeaders _

theorem hasCors_handleDeleteCanvas (id : String) (kv : KV) :
    hasCorsHeaders (handleDeleteCanvas id kv).1 = true :=
  hasCorsHeaders_setCorsHeaders _

theorem hasCors_handleRenameCanvas (now : String) (body : Option Json) (id : String)
    (kv : KV) (r : Response) (kv' : KV)
    (h : handleRenameCanvas now body id kv = .ok (r, kv')) :
    hasCorsHeaders r = true := by
  cases body with
  | none => exact absurd h (by simp [handleRenameCanvas, requestJson,
      Bind.bind, Except.bind])
  | some d =>
    cases hn : getProp d "name" with
    | error e =>
      exact absurd h (by simp [handleRenameCanvas, requestJson, hn,
        Bind.bind, Except.bind])
    | ok no =>
      rw [show handleRenameCanvas now (some d) id kv =
          Except.bind (getProp d "name") (fun newNameOpt =>
            if ¬ truthyOpt newNameOpt then
              Except.ok (setCorsHeaders (Response.mk 400
                (Body.text "New name not provided") []), kv)
            else
              if ¬ truthyOpt (kvGet kv (KEY_PREFIX_METADATA ++ id)) then
                Except.ok (setCorsHeaders (Response.mk 404
                  (Body.text "Canvas metadata not found. Cannot rename.") []), kv)
              else if ¬ truthyOpt (kvGet kv (KEY_PREFIX_DATA ++ id)) then
                Except.ok (setCorsHeaders (Response.mk 404
                  (Body.text "Canvas data not found. Cannot rename.") []), kv)
              else
                Except.ok (setCorsHeaders (Response.mk 204 Body.empty []),
                  kvPut (kvPut kv (KEY_PREFIX_METADATA ++ id)
                    (Json.obj (setField (setField
                      ((kvGet kv (KEY_PREFIX_METADATA ++ id)).getD Json.null).spreadFields
                      "name" (newNameOpt.getD Json.null))
                      "updatedAt" (Json.str now))))
                    (KEY_PREFIX_DATA ++ id)
                    (Json.obj (setField
                      ((kvGet kv (KEY_PREFIX_DATA ++ id)).getD Json.null).spreadFields
                      "appState" (Json.obj (setField
                        (spreadOpt (((kvGet kv (KEY_PREFIX_DATA ++ id)).getD
                          Json.null).getField "appState"))
                        "name" (newNameOpt.getD Json.null))))))) from rfl] at h
      rw [hn] at h
      simp only [Except.bind] at h
      by_cases h1 : truthyOpt no
      · simp only [h1, not_true, if_false] at h
        by_cases h2 : truthyOpt (kvGet kv (KEY_PREFIX_METADATA ++ id))
        · simp only [h2, not_true, if_false] at h
          by_cases h3 : truthyOpt (kvGet kv (KEY_PREFIX_DATA ++ id))
          · simp only [h3, not_true, if_false] at h
            rw [← (Prod.mk.inj (Except.ok.inj h)).1]
            exact hasCorsHeaders_setCorsHeaders _
          · simp only [h3, not_false_iff, if_true] at h
            rw [← (Prod.mk.inj (Except.ok.inj h)).1]
            exact hasCorsHeaders_setCorsHeaders _
        · simp only [h2, not_false_iff, if_true] at h
          rw [← (Prod.mk.inj (Except.ok.inj h)).1]
          exact hasCorsHeaders_setCorsHeaders _
      · simp only [h1, not_false_iff, if_true] at h
        rw [← (Prod.mk.inj (Except.ok.inj h)).1]
        exact hasCorsHeaders_setCorsHeaders _

/-- C8 counterexample: an unauthorized (non-preflight) request gets the 401
response built with no headers at all — it does not carry
Access-Control-Allow-Origin or any other CORS header, contrary to the
claim. (The 500 failure-boundary response on line 47 of the source is
likewise built without `setCorsHeaders`.) -/
theorem C8_counterexample :
    fetch "i" "t" (Request.mk "GET" "/api/canvases" [] none) (Env.mk "s") [] =
      (Response.mk 401 (Body.text "Unauthorized") [], []) ∧
    hasCorsHeaders (Response.mk 401 (Body.text "Unauthorized") []) = false ∧
    headersGet (Response.mk 401 (Body.text "Unauthorized") []).headers
      "Access-Control-Allow-Origin" = none := by
  refine ⟨by decide, by decide, by decide⟩

/-- C8 amended: every response produced for an authorized non-OPTIONS
request, except the top-level 500 failure-boundary response and the
CORS-less inner 404 for an empty id segment, carries the CORS headers
Access-Control-Allow-Origin: *, the method allow-list and the allowed
headers; the 401 Unauthorized and 500 responses are returned without CORS
headers (see the counterexample). -/
theorem C8_handler_responses_carry_cors (newId now : String) (req : Request)
    (env : Env) (kv : KV)
    (hm : req.method ≠ "OPTIONS") (ha : isAuthorized req env = true)
    (hid : jsStartsWith req.path "/api/canvases/" = true → pathSegment3 req.path ≠ "")
    (r : Response) (kv2 : KV) (hr : fetch newId now req env kv = (r, kv2))
    (h500 : r.status ≠ 500) :
    hasCorsHeaders r = true := by
  rw [show fetch newId now req env kv = fetchRouter newId now req kv by
    simp [fetch, hm, ha]] at hr
  by_cases hp : req.path = "/api/canvases"
  · by_cases hg : req.method = "GET"
    · simp only [fetchRouter, routeCanvases, hp, if_true, hg] at hr
      rw [← (Prod.mk.inj hr).1]
      exact hasCors_handleListCanvases kv
    · by_cases hpost : req.method = "POST"
      · simp only [fetchRouter, routeCanvases, hp, if_true, hg, hpost,
          if_false] at hr
        cases hc : handleCreateCanvas newId now req.body kv with
        | ok p =>
          rw [hc] at hr
          rw [← (Prod.mk.inj hr).1]
          exact hasCors_handleCreateCanvas newId now req.body kv p.1 p.2
            (by rw [hc])
        | error msg =>
          rw [hc] at hr
          exact absurd (congrArg Response.status (Prod.mk.inj hr).1).symm h500
      · simp only [fetchRouter, routeCanvases, hp, if_true, hg, hpost,
          if_false] at hr
        rw [← (Prod.mk.inj hr).1]
        exact hasCorsHeaders_setCorsHeaders _
  · by_cases hsp : jsStartsWith req.path "/api/canvases/"
    · have hne : pathSegment3 req.path ≠ "" := hid hsp
      by_cases hg : req.method = "GET"
      · simp only [fetchRouter, routeCanvases, hp, if_false, hsp, if_true,
          hne, hg] at hr
        rw [← (Prod.mk.inj hr).1]
        exact hasCors_handleLoadCanvas _ kv
      · by_cases hput : req.method = "PUT"
        · simp only [fetchRouter, routeCanvases, hp, if_false, hsp, if_true,
            hne, hg, hput] at hr
          cases hc : handleSaveCanvas now req.body (pathSegment3 req.path) kv with
          | ok p =>
            rw [hc] at hr
            rw [← (Prod.mk.inj hr).1]
            exact hasCors_handleSaveCanvas now req.body (pathSegment3 req.path)
              kv p.1 p.2 (by rw [hc])
          | error msg =>
            rw [hc] at hr
            exact absurd (congrArg Response.status (Prod.mk.inj hr).1).symm h500
        · by_cases hdel : req.method = "DELETE"
          · have e1 : (("DELETE" : String) = "GET") = False := eq_false (by decide)
            have e2 : (("DELETE" : String) = "PUT") = False := eq_false (by decide)
            simp only [fetchRouter, routeCanvases, hp, if_false, hsp, if_true,
              hne, hdel, e1, e2, eq_self_iff_true] at hr
            rw [← (Prod.mk.inj hr).1]
            exact hasCorsHeaders_setCorsHeaders _
          · by_cases hpatch : req.method = "PATCH"
            · have e1 : (("PATCH" : String) = "GET") = False := eq_false (by decide)
              have e2 : (("PATCH" : String) = "PUT") = False := eq_false (by decide)
              have e3 : (("PATCH" : String) = "DELETE") = False := eq_false (by decide)
              simp only [fetchRouter, routeCanvases, hp, if_false, hsp, if_true,
                hne, hpatch, e1, e2, e3, eq_self_iff_true] at hr
              cases hc : handleRenameCanvas now req.body (pathSegment3 req.path) kv with
              | ok p =>
                rw [hc] at hr
                rw [← (Prod.mk.inj hr).1]
                exact hasCors_handleRenameCanvas now req.body
                  (pathSegment3 req.path) kv p.1 p.2 (by rw [hc])
              | error msg =>
                rw [hc] at hr
                exact absurd (congrArg Response.status (Prod.mk.inj hr).1).symm h500
            · simp only [fetchRouter, routeCanvases, hp, if_false, hsp, if_true,
                hne, hg, hput, hdel, hpatch] at hr
              rw [← (Prod.mk.inj hr).1]
              exact hasCorsHeaders_setCorsHeaders _
    · simp only [fetchRouter, routeCanvases, hp, if_false, hsp] at hr
      rw [← (Prod.mk.inj hr).1]
      exact hasCorsHeaders_setCorsHeaders _

/-- Witness for C8 amended: an authorized list request on the empty store;
its 200 response carries the CORS headers. -/
theorem C8_handler_responses_carry_cors_witness :
    hasCorsHeaders
      (fetch "i" "t" (Request.mk "GET" "/api/canvases"
        [("Authorization", "Bearer s")] none) (Env.mk "s") []).1 = true :=
  C8_handler_responses_carry_cors "i" "t"
    (Request.mk "GET" "/api/canvases" [("Authorization", "Bearer s")] none)
    (Env.mk "s") [] (by decide) (by decide) (fun hh => absurd hh (by decide))
    (fetch "i" "t" (Request.mk "GET" "/api/canvases"
      [("Authorization", "Bearer s")] none) (Env.mk "s") []).1
    (fetch "i" "t" (Request.mk "GET" "/api/canvases"
      [("Authorization", "Bearer s")] none) (Env.mk "s") []).2
    (by decide) (by decide)

/-- The rename handler, with the do-notation unfolded (definitional). -/
theorem handleRenameCanvas_unfold (now : String) (d : Json) (id : String) (kv : KV) :
    handleRenameCanvas now (some d) id kv =
      Except.bind (getProp d "name") (fun newNameOpt =>
        if ¬ truthyOpt newNameOpt then
          Except.ok (setCorsHeaders (Response.mk 400
            (Body.text "New name not provided") []), kv)
        else
          if ¬ truthyOpt (kvGet kv (KEY_PREFIX_METADATA ++ id)) then
            Except.ok (setCorsHeaders (Response.mk 404
              (Body.text "Canvas metadata not found. Cannot rename.") []), kv)
          else if ¬ truthyOpt (kvGet kv (KEY_PREFIX_DATA ++ id)) then
            Except.ok (setCorsHeaders (Response.mk 404
              (Body.text "Canvas data not found. Cannot rename.") []), kv)
          else
            Except.ok (setCorsHeaders (Response.mk 204 Body.empty []),
              kvPut (kvPut kv (KEY_PREFIX_METADATA ++ id)
                (Json.obj (setField (setField
                  ((kvGet kv (KEY_PREFIX_METADATA ++ id)).getD Json.null).spreadFields
                  "name" (newNameOpt.getD Json.null))
                  "updatedAt" (Json.str now))))
                (KEY_PREFIX_DATA ++ id)
                (Json.obj (setField
                  ((kvGet kv (KEY_PREFIX_DATA ++ id)).getD Json.null).spreadFields
                  "appState" (Json.obj (setField
                    (spreadOpt (((kvGet kv (KEY_PREFIX_DATA ++ id)).getD
                      Json.null).getField "appState"))
                    "name" (newNameOpt.getD Json.null))))))) := rfl

/-- C5 counterexample: the PATCH body has a name field — the empty string —
yet with both records present the handler answers 400 (JS `!newName` treats
the empty string as missing), where the claim prescribes a 204 rename. -/
theorem C5_counterexample :
    handleRenameCanvas "t1" (some (Json.obj [("name", Json.str "")])) "abc"
        [(KEY_PREFIX_METADATA ++ "abc",
          Json.obj [("id", Json.str "abc"), ("name", Json.str "old")]),
         (KEY_PREFIX_DATA ++ "abc",
          Json.obj [("appState", Json.obj [("name", Json.str "old")])])] =
      .ok (setCorsHeaders (Response.mk 400 (Body.text "New name not provided") []),
        [(KEY_PREFIX_METADATA ++ "abc",
          Json.obj [("id", Json.str "abc"), ("name", Json.str "old")]),
         (KEY_PREFIX_DATA ++ "abc",
          Json.obj [("appState", Json.obj [("name", Json.str "old")])])]) ∧
    Json.getField (Json.obj [("name", Json.str "")]) "name" = some (Json.str "") ∧
    (400 : Nat) ≠ 204 := by
  refine ⟨by decide, by decide, by decide⟩

/-- C5 amended: for an authorized PATCH whose JSON body does not make the
name access throw, the handler answers 400 when the body's name is absent or
falsy (e.g. the empty string); otherwise 404 when the metadata record is
absent (metadata checked before data), 404 when the data record is absent;
otherwise it rewrites both records — name set to the new name in the
metadata and in the data's appState, updatedAt bumped — and answers 204. -/
theorem C5_rename (now id : String) (b : Json) (kv : KV) :
    (∀ o, getProp b "name" = .ok o → truthyOpt o = false →
      handleRenameCanvas now (some b) id kv =
        .ok (setCorsHeaders (Response.mk 400
          (Body.text "New name not provided") []), kv)) ∧
    (∀ nv, getProp b "name" = .ok (some nv) → nv.truthy = true →
      (kvGet kv (KEY_PREFIX_METADATA ++ id) = none →
        handleRenameCanvas now (some b) id kv =
          .ok (setCorsHeaders (Response.mk 404
            (Body.text "Canvas metadata not found. Cannot rename.") []), kv)) ∧
      (∀ m, kvGet kv (KEY_PREFIX_METADATA ++ id) = some m → m.truthy = true →
        kvGet kv (KEY_PREFIX_DATA ++ id) = none →
        handleRenameCanvas now (some b) id kv =
          .ok (setCorsHeaders (Response.mk 404
            (Body.text "Canvas data not found. Cannot rename.") []), kv)) ∧
      (∀ m d, kvGet kv (KEY_PREFIX_METADATA ++ id) = some m → m.truthy = true →
        kvGet kv (KEY_PREFIX_DATA ++ id) = some d → d.truthy = true →
        ∃ m2 d2 : Json,
          handleRenameCanvas now (some b) id kv =
            .ok (setCorsHeaders (Response.mk 204 Body.empty []),
              kvPut (kvPut kv (KEY_PREFIX_METADATA ++ id) m2)
                (KEY_PREFIX_DATA ++ id) d2) ∧
          m2.getField "name" = some nv ∧
          m2.getField "updatedAt" = some (Json.str now) ∧
          (∃ fs, d2.getField "appState" = some (Json.obj fs) ∧
            fieldsGet fs "name" = some nv))) := by
  constructor
  · intro o ho hf
    rw [handleRenameCanvas_unfold, ho]
    simp only [Except.bind]
    simp [hf]
  · intro nv hn ht
    refine ⟨?_, ?_, ?_⟩
    · intro hmn
      rw [handleRenameCanvas_unfold, hn]
      simp only [Except.bind]
      simp [truthyOpt, ht, hmn]
    · intro m hmm htm hdn
      rw [handleRenameCanvas_unfold, hn]
      simp only [Except.bind]
      simp [truthyOpt, ht, hmm, htm, hdn]
    · intro m d hmm htm hdd htd
      refine ⟨Json.obj (setField (setField m.spreadFields "name" nv)
          "updatedAt" (Json.str now)),
        Json.obj (setField d.spreadFields "appState"
          (Json.obj (setField (spreadOpt (d.getField "appState")) "name" nv))),
        ?_, ?_, ?_, ?_⟩
      · rw [handleRenameCanvas_unfold, hn]
        simp only [Except.bind]
        simp [truthyOpt, ht, hmm, htm, hdd, htd]
      · rw [show Json.getField (Json.obj (setField (setField m.spreadFields
          "name" nv) "updatedAt" (Json.str now))) "name" =
            fieldsGet (setField (setField m.spreadFields "name" nv)
              "updatedAt" (Json.str now)) "name" from rfl]
        rw [fieldsGet_setField_ne _ _ _ _ (by decide), fieldsGet_setField_self]
      · rw [show Json.getField (Json.obj (setField (setField m.spreadFields
          "name" nv) "updatedAt" (Json.str now))) "updatedAt" =
            fieldsGet (setField (setField m.spreadFields "name" nv)
              "updatedAt" (Json.str now)) "updatedAt" from rfl]
        rw [fieldsGet_setField_self]
      · refine ⟨setField (spreadOpt (d.getField "appState")) "name" nv, ?_, ?_⟩
        · rw [show Json.getField (Json.obj (setField d.spreadFields "appState"
            (Json.obj (setField (spreadOpt (d.getField "appState")) "name" nv))))
              "appState" =
              fieldsGet (setField d.spreadFields "appState"
                (Json.obj (setField (spreadOpt (d.getField "appState")) "name" nv)))
                "appState" from rfl]
          rw [fieldsGet_setField_self]
        · rw [fieldsGet_setField_self]

/-- Witness for C5 amended: a successful rename at concrete inputs. -/
theorem C5_rename_witness :
    ∃ m2 d2 : Json,
      handleRenameCanvas "t1" (some (Json.obj [("name", Json.str "New")])) "abc"
          [(KEY_PREFIX_METADATA ++ "abc",
            Json.obj [("id", Json.str "abc"), ("name", Json.str "old")]),
           (KEY_PREFIX_DATA ++ "abc",
            Json.obj [("appState", Json.obj [("name", Json.str "old")])])] =
        .ok (setCorsHeaders (Response.mk 204 Body.empty []),
          kvPut (kvPut
            [(KEY_PREFIX_METADATA ++ "abc",
              Json.obj [("id", Json.str "abc"), ("name", Json.str "old")]),
             (KEY_PREFIX_DATA ++ "abc",
              Json.obj [("appState", Json.obj [("name", Json.str "old")])])]
            (KEY_PREFIX_METADATA ++ "abc") m2) (KEY_PREFIX_DATA ++ "abc") d2) ∧
      m2.getField "name" = some (Json.str "New") ∧
      m2.getField "updatedAt" = some (Json.str "t1") ∧
      (∃ fs, d2.getField "appState" = some (Json.obj fs) ∧
        fieldsGet fs "name" = some (Json.str "New")) :=
  ((C5_rename "t1" "abc" (Json.obj [("name", Json.str "New")])
      [(KEY_PREFIX_METADATA ++ "abc",
        Json.obj [("id", Json.str "abc"), ("name", Json.str "old")]),
       (KEY_PREFIX_DATA ++ "abc",
        Json.obj [("appState", Json.obj [("name", Json.str "old")])])]).2
    (Json.str "New") (by decide) (by decide)).2.2
    (Json.obj [("id", Json.str "abc"), ("name", Json.str "old")])
    (Json.obj [("appState", Json.obj [("name", Json.str "old")])])
    (by decide) (by decide) (by decide) (by decide)

/-- The save handler, with the do-notation unfolded (definitional). -/
theorem handleSaveCanvas_unfold (now : String) (d : Json) (id : String) (kv : KV) :
    handleSaveCanvas now (some d) id kv =
      (match kvGet kv (KEY_PREFIX_METADATA ++ id) with
       | none => Except.ok (setCorsHeaders (Response.mk 404
           (Body.text "Canvas metadata not found. Cannot save.") []), kv)
       | some existingMetadata =>
         if ¬ existingMetadata.truthy then
           Except.ok (setCorsHeaders (Response.mk 404
             (Body.text "Canvas metadata not found. Cannot save.") []), kv)
         else
           Except.bind (getProp d "appState") (fun appState =>
             Except.ok (setCorsHeaders (Response.mk 204 Body.empty []),
               kvPut (kvPut kv (KEY_PREFIX_METADATA ++ id) (Json.obj
                 (setField (setFieldOpt existingMetadata.spreadFields "name"
                   (jsOrOpt (optChain appState "name")
                     (existingMetadata.getField "name")))
                   "updatedAt" (Json.str now))))
                 (KEY_PREFIX_DATA ++ id) d))) := rfl

/-- C7: whatever the save (PUT) or rename (PATCH) handler does, the metadata
record stored under the id keeps every field other than name and updatedAt
unchanged — in particular id and createdAt are never changed. -/
theorem C7_save_rename_preserve_fields (now id k : String) (b m : Json) (kv : KV)
    (hm : kvGet kv (KEY_PREFIX_METADATA ++ id) = some m)
    (hk1 : k ≠ "name") (hk2 : k ≠ "updatedAt") :
    (∀ r kv' m', handleSaveCanvas now (some b) id kv = .ok (r, kv') →
      kvGet kv' (KEY_PREFIX_METADATA ++ id) = some m' →
      m'.getField k = m.getField k) ∧
    (∀ r kv' m', handleRenameCanvas now (some b) id kv = .ok (r, kv') →
      kvGet kv' (KEY_PREFIX_METADATA ++ id) = some m' →
      m'.getField k = m.getField k) := by
  have hgf : ∀ nv : Option Json,
      fieldsGet (setField (setFieldOpt m.spreadFields "name" nv)
        "updatedAt" (Json.str now)) k = m.getField k := by
    intro nv
    rw [fieldsGet_setField_ne _ _ _ _ hk2]
    cases nv with
    | none =>
      rw [show setFieldOpt m.spreadFields "name" none =
        dropField m.spreadFields "name" from rfl]
      rw [fieldsGet_dropField_ne _ _ _ hk1]
      exact fieldsGet_spreadFields m k
    | some v =>
      rw [show setFieldOpt m.spreadFields "name" (some v) =
        setField m.spreadFields "name" v from rfl]
      rw [fieldsGet_setField_ne _ _ _ _ hk1]
      exact fieldsGet_spreadFields m k
  constructor
  · intro r kv' m' h hm'
    rw [handleSaveCanvas_unfold, hm] at h
    by_cases htm : m.truthy
    · simp only [htm, not_true, if_false] at h
      cases hap : getProp b "appState" with
      | error e =>
        rw [hap] at h
        exact absurd h (by simp [Except.bind])
      | ok o =>
        rw [hap] at h
        simp only [Except.bind] at h
        obtain ⟨-, hkv⟩ := Prod.mk.inj (Except.ok.inj h)
        rw [← hkv] at hm'
        rw [kvGet_kvPut_ne _ _ _ _ (metaKey_ne_dataKey id),
          kvGet_kvPut_self] at hm'
        rw [← Option.some.inj hm']
        exact hgf _
    · simp only [htm, not_false_iff, if_true] at h
      obtain ⟨-, hkv⟩ := Prod.mk.inj (Except.ok.inj h)
      rw [← hkv] at hm'
      rw [hm] at hm'
      rw [← Option.some.inj hm']
  · intro r kv' m' h hm'
    rw [handleRenameCanvas_unfold] at h
    cases hn : getProp b "name" with
    | error e =>
      rw [hn] at h
      exact absurd h (by simp [Except.bind])
    | ok no =>
      rw [hn] at h
      simp only [Except.bind] at h
      by_cases h1 : truthyOpt no
      · simp only [h1, not_true, if_false] at h
        by_cases h2 : truthyOpt (kvGet kv (KEY_PREFIX_METADATA ++ id))
        · simp only [h2, not_true, if_false] at h
          by_cases h3 : truthyOpt (kvGet kv (KEY_PREFIX_DATA ++ id))
          · simp only [h3, not_true, if_false] at h
            obtain ⟨-, hkv⟩ := Prod.mk.inj (Except.ok.inj h)
            rw [← hkv] at hm'
            rw [kvGet_kvPut_ne _ _ _ _ (metaKey_ne_dataKey id),
              kvGet_kvPut_self] at hm'
            rw [← Option.some.inj hm']
            rw [hm]
            rw [show (some m).getD Json.null = m from rfl]
            rw [show Json.getField (Json.obj (setField (setField m.spreadFields
              "name" (no.getD Json.null)) "updatedAt" (Json.str now))) k =
                fieldsGet (setField (setField m.spreadFields
                  "name" (no.getD Json.null)) "updatedAt" (Json.str now)) k from rfl]
            rw [fieldsGet_setField_ne _ _ _ _ hk2,
              fieldsGet_setField_ne _ _ _ _ hk1]
            exact fieldsGet_spreadFields m k
          · simp only [h3, not_false_iff, if_true] at h
            obtain ⟨-, hkv⟩ := Prod.mk.inj (Except.ok.inj h)
            rw [← hkv] at hm'
            rw [hm] at hm'
            rw [← Option.some.inj hm']
        · simp only [h2, not_false_iff, if_true] at h
          obtain ⟨-, hkv⟩ := Prod.mk.inj (Except.ok.inj h)
          rw [← hkv] at hm'
          rw [hm] at hm'
          rw [← Option.some.inj hm']
      · simp only [h1, not_false_iff, if_true] at h
        obtain ⟨-, hkv⟩ := Prod.mk.inj (Except.ok.inj h)
        rw [← hkv] at hm'
        rw [hm] at hm'
        rw [← Option.some.inj hm']

/-- Witness for C7: a concrete successful save; the rewritten metadata keeps
createdAt (and would keep any field other than name and updatedAt). -/
theorem C7_save_rename_preserve_fields_witness :
    (Json.obj [("id", Json.str "abc"), ("name", Json.str "N2"),
      ("createdAt", Json.str "t0"), ("updatedAt", Json.str "t1"),
      ("userId", Json.num 0)]).getField "createdAt" =
    (Json.obj [("id", Json.str "abc"), ("name", Json.str "old"),
      ("createdAt", Json.str "t0"), ("updatedAt", Json.str "t0"),
      ("userId", Json.num 0)]).getField "createdAt" :=
  (C7_save_rename_preserve_fields "t1" "abc" "createdAt"
    (Json.obj [("appState", Json.obj [("name", Json.str "N2")])])
    (Json.obj [("id", Json.str "abc"), ("name", Json.str "old"),
      ("createdAt", Json.str "t0"), ("updatedAt", Json.str "t0"),
      ("userId", Json.num 0)])
    [(KEY_PREFIX_METADATA ++ "abc",
      Json.obj [("id", Json.str "abc"), ("name", Json.str "old"),
        ("createdAt", Json.str "t0"), ("updatedAt", Json.str "t0"),
        ("userId", Json.num 0)])]
    (by decide) (by decide) (by decide)).1
    (Response.mk 204 Body.empty
      [("Access-Control-Allow-Origin", "*"),
       ("Access-Control-Allow-Methods", "GET, POST, PUT, DELETE, PATCH, OPTIONS"),
       ("Access-Control-Allow-Headers", "Content-Type, Authorization")])
    [(KEY_PREFIX_METADATA ++ "abc",
      Json.obj [("id", Json.str "abc"), ("name", Json.str "N2"),
        ("createdAt", Json.str "t0"), ("updatedAt", Json.str "t1"),
        ("userId", Json.num 0)]),
     (KEY_PREFIX_DATA ++ "abc",
      Json.obj [("appState", Json.obj [("name", Json.str "N2")])])]
    (Json.obj [("id", Json.str "abc"), ("name", Json.str "N2"),
      ("createdAt", Json.str "t0"), ("updatedAt", Json.str "t1"),
      ("userId", Json.num 0)])
    (by decide) (by decide)

end CfKv
